import Mathlib

set_option maxRecDepth 1000000

/-!
Verification development for the hours/pay forecasting application.

The development shallowly embeds the core calculation logic of the
repository:

* `calculateAllTotals` — the pure calculation function of the refactored
  revision (`src/unnamed/part_000`, lines 90–212; the same algorithm
  appears in `src/unnamed/part_001`, lines 822–944).
* `appCalculateAllTotals` — the effect-based revision of the same
  calculation (`src/src/App.jsx`, lines 168–287; also
  `src/unnamed/part_002`, lines 174–296).
* `handleNdisRateSelect` — the rate-sheet update on selecting a catalog
  entry for a non-base category (`src/unnamed/part_001`, lines 571–584,
  else-branch).

Numeric values (hours, rates, pay, budget) are JavaScript numbers in the
source; they are modelled as rationals (`ℚ`), with the `parseFloat(x) || 0`
coercion modelled by taking the already-coerced numeric value as input.
Calendar dates are modelled as proleptic-Gregorian `(year, month, day)`
triples; the JavaScript `Date` arithmetic (`setDate(getDate()+1)`,
`getDay()`, millisecond differences) is modelled by exact calendar
arithmetic, i.e. without the host time-zone artefacts of `toISOString`.
-/

namespace HoursApp

/-! ## Calendar dates -/

/-- A calendar date: year, month (1–12), day of month (1-based).
JavaScript `Date.getMonth()` is 0-indexed; here `month` is 1-indexed and
translations are noted where the source uses `getMonth()`. -/
structure CalDate where
  year : Nat
  month : Nat
  day : Nat
deriving DecidableEq, Repr

/-- Gregorian leap-year test. -/
def isLeapYear (y : Nat) : Bool :=
  y % 4 == 0 && (y % 100 != 0 || y % 400 == 0)

/-- Number of days in a month of a given year. -/
def daysInMonth (y m : Nat) : Nat :=
  if m = 2 then (if isLeapYear y then 29 else 28)
  else if m = 4 ∨ m = 6 ∨ m = 9 ∨ m = 11 then 30
  else 31

/-- Days strictly before month `m` in a non-leap year. -/
def monthPrefixDays (m : Nat) : Nat :=
  match m with
  | 1 => 0 | 2 => 31 | 3 => 59 | 4 => 90 | 5 => 120 | 6 => 151
  | 7 => 181 | 8 => 212 | 9 => 243 | 10 => 273 | 11 => 304 | 12 => 334
  | _ => 0

/-- Rata-die serial number of a date (day 1 = 0001-01-01, proleptic
Gregorian). Differences of serial numbers model the JavaScript
`(d.getTime() - start.getTime()) / (1000*3600*24)` day offsets. -/
def rataDie (dt : CalDate) : Nat :=
  let y := dt.year - 1
  365 * y + y / 4 - y / 100 + y / 400
    + monthPrefixDays dt.month
    + (if 2 < dt.month ∧ isLeapYear dt.year then 1 else 0)
    + dt.day

/-- Day of week as returned by JavaScript `Date.getDay()`:
0 = Sunday, 1 = Monday, …, 6 = Saturday. -/
def dayOfWeek (dt : CalDate) : Nat :=
  rataDie dt % 7

/-- The calendar day after `dt`, modelling `d.setDate(d.getDate() + 1)`. -/
def nextDate (dt : CalDate) : CalDate :=
  if dt.day < daysInMonth dt.year dt.month then ⟨dt.year, dt.month, dt.day + 1⟩
  else if dt.month < 12 then ⟨dt.year, dt.month + 1, 1⟩
  else ⟨dt.year + 1, 1, 1⟩

/-! ## Data model of the refactored revision (part_000) -/

/-- Shift of a Monday–Friday slot (`dayInfo.shift`). -/
inductive Shift where
  | day
  | evening
deriving DecidableEq, Repr

/-- One weekday slot of the day pattern (`weeklyDays[dayName]`), with the
`hours` string already coerced through `parseFloat(dayInfo.hours) || 0`. -/
structure DayInfo where
  selected : Bool
  hours : ℚ
  shift : Shift
deriving DecidableEq, Repr

/-- The seven-slot day pattern (`weeklyDays`). -/
structure WeeklyDays where
  monday : DayInfo
  tuesday : DayInfo
  wednesday : DayInfo
  thursday : DayInfo
  friday : DayInfo
  saturday : DayInfo
  sunday : DayInfo
deriving DecidableEq, Repr

/-- Slot lookup by `getDay()` index via
`WEEK_DAYS_ORDER = ['Sunday','Monday',…,'Saturday']`. -/
def WeeklyDays.get (w : WeeklyDays) (i : Nat) : DayInfo :=
  match i with
  | 0 => w.sunday
  | 1 => w.monday
  | 2 => w.tuesday
  | 3 => w.wednesday
  | 4 => w.thursday
  | 5 => w.friday
  | _ => w.saturday

/-- The five manual hourly rates (`rates`), each already coerced through
`parseFloat(...) || 0`. -/
structure Rates where
  weekdayRate : ℚ
  weekdayEveningRate : ℚ
  saturdayRate : ℚ
  sundayRate : ℚ
  publicHolidayRate : ℚ
deriving DecidableEq, Repr

/-- Recurrence policy (`recurringType`). -/
inductive RecurringType where
  | Daily
  | Weekly
  | Fortnightly
  | Monthly
  | Quarterly
deriving DecidableEq, Repr

/-- Budget mode (`budgetMode`): `'noBudget'` or `'lock'`. -/
inductive BudgetMode where
  | noBudget
  | lock
deriving DecidableEq, Repr

/-- The input snapshot consumed by `calculateAllTotals` (part_000).
`publicHolidays` is the holiday list already parsed from the
comma-separated `publicHolidaysInput` field (trimmed, empty tokens
dropped); `budget` is `parseFloat(budget) || 0`. -/
structure Inputs where
  fromDate : CalDate
  toDate : CalDate
  recurringType : RecurringType
  weeklyDays : WeeklyDays
  includePublicHolidays : Bool
  publicHolidays : List CalDate
  rates : Rates
  budget : ℚ
  budgetMode : BudgetMode
deriving DecidableEq, Repr

/-- The mutable tallies accumulated by the classifier loop (`totals` with
its nested `breakdown`). -/
structure Totals where
  weekdayHours : ℚ
  weekdayEveningHours : ℚ
  saturdayHours : ℚ
  sundayHours : ℚ
  publicHolidayHours : ℚ
  days : Nat
  weekdays : Nat
  saturdays : Nat
  sundays : Nat
  publicHolidays : Nat
deriving DecidableEq, Repr

/-- Initial zero tallies. -/
def initTotals : Totals :=
  ⟨0, 0, 0, 0, 0, 0, 0, 0, 0, 0⟩

/-- The holiday set used by the loop:
`new Set(includePublicHolidays ? publicHolidaysInput.split(',')... : [])`. -/
def holidaySet (includePublicHolidays : Bool) (publicHolidays : List CalDate) :
    List CalDate :=
  if includePublicHolidays then publicHolidays else []

/-- The recurrence predicate of part_000's `switch (recurringType)`:
`'Weekly'` is always live, `'Fortnightly'` is live on even 7-day blocks
since the range start, and every other value falls to `default: true`. -/
def shouldCountDay (rt : RecurringType) (daysSinceStart : Nat) : Bool :=
  match rt with
  | .Weekly => true
  | .Fortnightly => (daysSinceStart / 7) % 2 == 0
  | _ => true

/-- One iteration of part_000's classifier loop body for date `d` at offset
`daysSinceStart` from the range start: skip if the slot is unselected or
its hours are zero, test the recurrence predicate, then classify with
holiday precedence and accumulate. -/
def processDay (rt : RecurringType) (w : WeeklyDays) (hset : List CalDate)
    (d : CalDate) (daysSinceStart : Nat) (t : Totals) : Totals :=
  let dayInfo := w.get (dayOfWeek d)
  if !dayInfo.selected then t
  else if dayInfo.hours = 0 then t
  else if shouldCountDay rt daysSinceStart then
    if d ∈ hset then
      { t with publicHolidayHours := t.publicHolidayHours + dayInfo.hours,
               publicHolidays := t.publicHolidays + 1,
               days := t.days + 1 }
    else if dayOfWeek d = 6 then
      { t with saturdayHours := t.saturdayHours + dayInfo.hours,
               saturdays := t.saturdays + 1,
               days := t.days + 1 }
    else if dayOfWeek d = 0 then
      { t with sundayHours := t.sundayHours + dayInfo.hours,
               sundays := t.sundays + 1,
               days := t.days + 1 }
    else if dayInfo.shift = .evening then
      { t with weekdayEveningHours := t.weekdayEveningHours + dayInfo.hours,
               weekdays := t.weekdays + 1,
               days := t.days + 1 }
    else
      { t with weekdayHours := t.weekdayHours + dayInfo.hours,
               weekdays := t.weekdays + 1,
               days := t.days + 1 }
  else t

/-- Fuel-indexed runner of the classifier loop: `fuel` remaining days,
current date `d`, current offset from the start. -/
def classifyGo (rt : RecurringType) (w : WeeklyDays) (hset : List CalDate) :
    Nat → CalDate → Nat → Totals → Totals
  | 0, _, _, t => t
  | fuel + 1, d, offset, t =>
      classifyGo rt w hset fuel (nextDate d) (offset + 1)
        (processDay rt w hset d offset t)

/-- The classifier: iterate every calendar date from `fromDate` to `toDate`
inclusive (`for (let d = new Date(start); d <= end; d.setDate(...))`). -/
def classify (fromDate toDate : CalDate) (rt : RecurringType)
    (w : WeeklyDays) (hset : List CalDate) : Totals :=
  if rataDie fromDate ≤ rataDie toDate then
    classifyGo rt w hset (rataDie toDate - rataDie fromDate + 1) fromDate 0 initTotals
  else initTotals

/-- Executable integer ceiling of a rational (the model of `Math.ceil`):
the negated floor of the negation, with the floor of a reduced fraction
taken by Euclidean division of numerator by denominator. -/
def ceilQ (q : ℚ) : Int :=
  -((-q).num / ((-q).den : Int))

/-- Ceiling rounding to two decimals:
`Math.ceil(num * 100) / 100` (part_000 line 15). -/
def roundUpToTwoDecimals (q : ℚ) : ℚ :=
  (ceilQ (q * 100) : ℚ) / 100

/-- The unrounded total pay: the `reduce`-sum of the five per-category
products `tallyHours × rate` of the local `pay` object. -/
def rawTotalPay (t : Totals) (r : Rates) : ℚ :=
  t.weekdayHours * r.weekdayRate + t.weekdayEveningHours * r.weekdayEveningRate
    + t.saturdayHours * r.saturdayRate + t.sundayHours * r.sundayRate
    + t.publicHolidayHours * r.publicHolidayRate

/-- The calendar month difference `monthsDiff` of part_000 lines 172–173:
`(end.getFullYear() - start.getFullYear()) * 12 - start.getMonth() +
end.getMonth()`, decremented when `end.getDate() < start.getDate()` and the
value is still positive (with `getMonth()` 0-indexed, hence `month - 1`). -/
def monthsDiffCalc (startDate endDate : CalDate) : Int :=
  let m : Int := ((endDate.year : Int) - startDate.year) * 12
    - ((startDate.month : Int) - 1) + ((endDate.month : Int) - 1)
  if endDate.day < startDate.day ∧ 0 < m then m - 1 else m

/-- One suggested slot of `suggestedDailyHours[dayName]`. -/
structure SuggestedDay where
  selected : Bool
  hours : ℚ
deriving DecidableEq, Repr

/-- The seven suggested slots filled by the budget-lock branch. -/
structure SuggestedDailyHours where
  monday : SuggestedDay
  tuesday : SuggestedDay
  wednesday : SuggestedDay
  thursday : SuggestedDay
  friday : SuggestedDay
  saturday : SuggestedDay
  sunday : SuggestedDay
deriving DecidableEq, Repr

/-- Suggested slot lookup by `getDay()` index, in the same order as
`WeeklyDays.get`. -/
def SuggestedDailyHours.get (s : SuggestedDailyHours) (i : Nat) : SuggestedDay :=
  match i with
  | 0 => s.sunday
  | 1 => s.monday
  | 2 => s.tuesday
  | 3 => s.wednesday
  | 4 => s.thursday
  | 5 => s.friday
  | _ => s.saturday

/-- The per-slot fill of the budget-lock branch:
`hours: selected ? currentHours * hourScalingFactor : 0`. -/
def suggestSlot (dayInfo : DayInfo) (factor : ℚ) : SuggestedDay :=
  ⟨dayInfo.selected, if dayInfo.selected then dayInfo.hours * factor else 0⟩

/-- All seven suggested slots (`Object.entries(weeklyDays).forEach(...)`). -/
def suggestedFor (w : WeeklyDays) (factor : ℚ) : SuggestedDailyHours :=
  ⟨suggestSlot w.monday factor, suggestSlot w.tuesday factor,
   suggestSlot w.wednesday factor, suggestSlot w.thursday factor,
   suggestSlot w.friday factor, suggestSlot w.saturday factor,
   suggestSlot w.sunday factor⟩

/-- The `results` object of part_000 lines 175–198 (without the JS-only
`error: null` field; the error case is the `Except.error` branch of
`calculateAllTotals`). `suggestedDailyHours` is `none` for the initial
empty object `{}` and `some` when the budget-lock branch fills it. -/
structure Results where
  totalHours : ℚ
  totalPay : ℚ
  weekdayHours : ℚ
  weekdayEveningHours : ℚ
  saturdayHours : ℚ
  sundayHours : ℚ
  publicHolidayHours : ℚ
  weekdayPay : ℚ
  weekdayEveningPay : ℚ
  saturdayPay : ℚ
  sundayPay : ℚ
  publicHolidayPay : ℚ
  calculatedTotalDays : Nat
  calculatedTotalWeekdays : Nat
  calculatedTotalSaturdays : Nat
  calculatedTotalSundays : Nat
  calculatedTotalPublicHolidays : Nat
  calculatedFullWeeks : Nat
  calculatedFullFortnights : Nat
  calculatedFullMonths : Int
  suggestedDailyHours : Option SuggestedDailyHours
deriving DecidableEq, Repr

/-- Assembly of the `results` object from the final tallies (part_000
lines 160–211): per-category pays are `tallyHours × rate`, `totalPay` is
the sum of the unrounded pays, every exposed figure is ceiling-rounded to
two decimals, and the budget-lock branch fills the suggestion when
`budgetMode === 'lock' && numBudget > 0 && totalPay > 0`. -/
def mkResults (inp : Inputs) (t : Totals) : Results :=
  { totalHours := roundUpToTwoDecimals (t.weekdayHours + t.weekdayEveningHours
      + t.saturdayHours + t.sundayHours + t.publicHolidayHours)
  , totalPay := roundUpToTwoDecimals (rawTotalPay t inp.rates)
  , weekdayHours := roundUpToTwoDecimals t.weekdayHours
  , weekdayEveningHours := roundUpToTwoDecimals t.weekdayEveningHours
  , saturdayHours := roundUpToTwoDecimals t.saturdayHours
  , sundayHours := roundUpToTwoDecimals t.sundayHours
  , publicHolidayHours := roundUpToTwoDecimals t.publicHolidayHours
  , weekdayPay := roundUpToTwoDecimals (t.weekdayHours * inp.rates.weekdayRate)
  , weekdayEveningPay := roundUpToTwoDecimals (t.weekdayEveningHours * inp.rates.weekdayEveningRate)
  , saturdayPay := roundUpToTwoDecimals (t.saturdayHours * inp.rates.saturdayRate)
  , sundayPay := roundUpToTwoDecimals (t.sundayHours * inp.rates.sundayRate)
  , publicHolidayPay := roundUpToTwoDecimals (t.publicHolidayHours * inp.rates.publicHolidayRate)
  , calculatedTotalDays := t.days
  , calculatedTotalWeekdays := t.weekdays
  , calculatedTotalSaturdays := t.saturdays
  , calculatedTotalSundays := t.sundays
  , calculatedTotalPublicHolidays := t.publicHolidays
  , calculatedFullWeeks := t.days / 7
  , calculatedFullFortnights := t.days / 14
  , calculatedFullMonths := max 0 (monthsDiffCalc inp.fromDate inp.toDate)
  , suggestedDailyHours :=
      if inp.budgetMode = .lock ∧ 0 < inp.budget ∧ 0 < rawTotalPay t inp.rates then
        some (suggestedFor inp.weeklyDays (inp.budget / rawTotalPay t inp.rates))
      else none }

/-- Part_000's `calculateAllTotals` (lines 90–212): validate the range
(`start > end` is a validation error), run the classifier over the closed
date range, and assemble the results. Unparsable date strings are outside
the model (`CalDate` inputs are structured); the `from > to` check is the
modelled validation. -/
def calculateAllTotals (inp : Inputs) : Except String Results :=
  if rataDie inp.toDate < rataDie inp.fromDate then
    .error "Please enter valid From and To dates."
  else
    .ok (mkResults inp
      (classify inp.fromDate inp.toDate inp.recurringType inp.weeklyDays
        (holidaySet inp.includePublicHolidays inp.publicHolidays)))

/-- The flexible pay base of the budget-lock solver: the unrounded local
`totalPay` the scaling factor divides by. -/
def flexiblePayBase (inp : Inputs) : ℚ :=
  rawTotalPay
    (classify inp.fromDate inp.toDate inp.recurringType inp.weeklyDays
      (holidaySet inp.includePublicHolidays inp.publicHolidays))
    inp.rates

/-! ## Data model of the effect-based revision (App.jsx / part_002) -/

/-- One weekday slot of App.jsx's `weeklyDays` (no shift field). -/
structure AppDayInfo where
  selected : Bool
  hours : ℚ
deriving DecidableEq, Repr

/-- The seven-slot day pattern of App.jsx. -/
structure AppWeeklyDays where
  monday : AppDayInfo
  tuesday : AppDayInfo
  wednesday : AppDayInfo
  thursday : AppDayInfo
  friday : AppDayInfo
  saturday : AppDayInfo
  sunday : AppDayInfo
deriving DecidableEq, Repr

/-- Slot lookup by `getDay()` index via `weekDaysOrder` (App.jsx line 191). -/
def AppWeeklyDays.get (w : AppWeeklyDays) (i : Nat) : AppDayInfo :=
  match i with
  | 0 => w.sunday
  | 1 => w.monday
  | 2 => w.tuesday
  | 3 => w.wednesday
  | 4 => w.thursday
  | 5 => w.friday
  | _ => w.saturday

/-- The four rates of App.jsx (no separate evening rate), each already
coerced through `parseFloat(...) || 0`. -/
structure AppRates where
  weekdayRate : ℚ
  saturdayRate : ℚ
  sundayRate : ℚ
  publicHolidayRate : ℚ
deriving DecidableEq, Repr

/-- The input snapshot consumed by App.jsx's `calculateAllTotals`. -/
structure AppInputs where
  fromDate : CalDate
  toDate : CalDate
  recurringType : RecurringType
  weeklyDays : AppWeeklyDays
  includePublicHolidays : Bool
  publicHolidays : List CalDate
  rates : AppRates
  budget : ℚ
  budgetMode : BudgetMode
deriving DecidableEq, Repr

/-- The accumulator variables of App.jsx's loop (lines 186–188):
`periodBreakdown*` counters plus the running hour and pay sums. -/
structure AppTotals where
  days : Nat
  weekdays : Nat
  saturdays : Nat
  sundays : Nat
  publicHolidays : Nat
  weekdayHours : ℚ
  saturdayHours : ℚ
  sundayHours : ℚ
  publicHolidayHours : ℚ
  totalHours : ℚ
  totalPay : ℚ
deriving DecidableEq, Repr

/-- Initial zero accumulators. -/
def appInitTotals : AppTotals :=
  ⟨0, 0, 0, 0, 0, 0, 0, 0, 0, 0, 0⟩

/-- App.jsx's recurrence predicate (lines 203–218): `'Daily'` and
`'Weekly'` always live, `'Fortnightly'` on even 7-day blocks, `'Monthly'`
on day-of-month ≤ 7, `'Quarterly'` on day-of-month ≤ 7 of January, April,
July, October (`getMonth() ∈ {0,3,6,9}`, i.e. 1-indexed months
{1,4,7,10}); its `default:` leaves the flag false. -/
def appShouldCount (rt : RecurringType) (d : CalDate) (daysSinceStart : Nat) : Bool :=
  match rt with
  | .Daily => true
  | .Weekly => true
  | .Fortnightly => (daysSinceStart / 7) % 2 == 0
  | .Monthly => decide (d.day ≤ 7)
  | .Quarterly =>
      decide ((d.month = 1 ∨ d.month = 4 ∨ d.month = 7 ∨ d.month = 10) ∧ d.day ≤ 7)

/-- One iteration of App.jsx's loop body (lines 193–243): only
`isDaySelectedInPattern && shouldCountThisDayInForecast` guards the
accumulation — a selected zero-hour day still increments the day counters.
Pay is accumulated per day at that day's rate, holidays first. -/
def appProcessDay (rt : RecurringType) (rates : AppRates) (w : AppWeeklyDays)
    (hset : List CalDate) (d : CalDate) (daysSinceStart : Nat)
    (t : AppTotals) : AppTotals :=
  let dayInfo := w.get (dayOfWeek d)
  let hoursToday := dayInfo.hours
  if dayInfo.selected && appShouldCount rt d daysSinceStart then
    if d ∈ hset then
      { t with days := t.days + 1, totalHours := t.totalHours + hoursToday,
               publicHolidayHours := t.publicHolidayHours + hoursToday,
               totalPay := t.totalPay + hoursToday * rates.publicHolidayRate,
               publicHolidays := t.publicHolidays + 1 }
    else if dayOfWeek d = 6 then
      { t with days := t.days + 1, totalHours := t.totalHours + hoursToday,
               saturdayHours := t.saturdayHours + hoursToday,
               saturdays := t.saturdays + 1,
               totalPay := t.totalPay + hoursToday * rates.saturdayRate }
    else if dayOfWeek d = 0 then
      { t with days := t.days + 1, totalHours := t.totalHours + hoursToday,
               sundayHours := t.sundayHours + hoursToday,
               sundays := t.sundays + 1,
               totalPay := t.totalPay + hoursToday * rates.sundayRate }
    else
      { t with days := t.days + 1, totalHours := t.totalHours + hoursToday,
               weekdayHours := t.weekdayHours + hoursToday,
               weekdays := t.weekdays + 1,
               totalPay := t.totalPay + hoursToday * rates.weekdayRate }
  else t

/-- Fuel-indexed runner of App.jsx's loop. -/
def appClassifyGo (rt : RecurringType) (rates : AppRates) (w : AppWeeklyDays)
    (hset : List CalDate) : Nat → CalDate → Nat → AppTotals → AppTotals
  | 0, _, _, t => t
  | fuel + 1, d, offset, t =>
      appClassifyGo rt rates w hset fuel (nextDate d) (offset + 1)
        (appProcessDay rt rates w hset d offset t)

/-- App.jsx's loop over the closed date range. -/
def appClassify (fromDate toDate : CalDate) (rt : RecurringType)
    (rates : AppRates) (w : AppWeeklyDays) (hset : List CalDate) : AppTotals :=
  if rataDie fromDate ≤ rataDie toDate then
    appClassifyGo rt rates w hset (rataDie toDate - rataDie fromDate + 1)
      fromDate 0 appInitTotals
  else appInitTotals

/-- The state fields App.jsx sets after its loop (lines 245–284), gathered
into one record. -/
structure AppResults where
  totalHours : ℚ
  weekdayHours : ℚ
  saturdayHours : ℚ
  sundayHours : ℚ
  publicHolidayHours : ℚ
  totalPay : ℚ
  weekdayPay : ℚ
  saturdayPay : ℚ
  sundayPay : ℚ
  publicHolidayPay : ℚ
  calculatedTotalDays : Nat
  calculatedTotalWeekdays : Nat
  calculatedTotalSaturdays : Nat
  calculatedTotalSundays : Nat
  calculatedTotalPublicHolidays : Nat
  calculatedFullWeeks : Nat
  calculatedFullFortnights : Nat
  calculatedFullMonths : Int
  suggestedDailyHours : Option SuggestedDailyHours
deriving DecidableEq, Repr

/-- The per-slot suggestion fill of App.jsx lines 276–282 (same rule as
part_000: `selected ? currentHours * hourScalingFactor : 0`). -/
def appSuggestedFor (w : AppWeeklyDays) (factor : ℚ) : SuggestedDailyHours :=
  ⟨⟨w.monday.selected, if w.monday.selected then w.monday.hours * factor else 0⟩,
   ⟨w.tuesday.selected, if w.tuesday.selected then w.tuesday.hours * factor else 0⟩,
   ⟨w.wednesday.selected, if w.wednesday.selected then w.wednesday.hours * factor else 0⟩,
   ⟨w.thursday.selected, if w.thursday.selected then w.thursday.hours * factor else 0⟩,
   ⟨w.friday.selected, if w.friday.selected then w.friday.hours * factor else 0⟩,
   ⟨w.saturday.selected, if w.saturday.selected then w.saturday.hours * factor else 0⟩,
   ⟨w.sunday.selected, if w.sunday.selected then w.sunday.hours * factor else 0⟩⟩

/-- Assembly of App.jsx's result state from the final accumulators
(lines 245–284): `totalPay` rounds the accumulated `finalTotalPay`,
per-category pays are `hours × rate` rounded, and the suggestion is filled
only when `budgetMode === 'lock' && numBudget > 0 && finalTotalPay > 0 &&
finalTotalHours > 0`. -/
def appMkResults (inp : AppInputs) (t : AppTotals) : AppResults :=
  { totalHours := roundUpToTwoDecimals t.totalHours
  , weekdayHours := roundUpToTwoDecimals t.weekdayHours
  , saturdayHours := roundUpToTwoDecimals t.saturdayHours
  , sundayHours := roundUpToTwoDecimals t.sundayHours
  , publicHolidayHours := roundUpToTwoDecimals t.publicHolidayHours
  , totalPay := roundUpToTwoDecimals t.totalPay
  , weekdayPay := roundUpToTwoDecimals (t.weekdayHours * inp.rates.weekdayRate)
  , saturdayPay := roundUpToTwoDecimals (t.saturdayHours * inp.rates.saturdayRate)
  , sundayPay := roundUpToTwoDecimals (t.sundayHours * inp.rates.sundayRate)
  , publicHolidayPay := roundUpToTwoDecimals (t.publicHolidayHours * inp.rates.publicHolidayRate)
  , calculatedTotalDays := t.days
  , calculatedTotalWeekdays := t.weekdays
  , calculatedTotalSaturdays := t.saturdays
  , calculatedTotalSundays := t.sundays
  , calculatedTotalPublicHolidays := t.publicHolidays
  , calculatedFullWeeks := t.days / 7
  , calculatedFullFortnights := t.days / 14
  , calculatedFullMonths := max 0 (monthsDiffCalc inp.fromDate inp.toDate)
  , suggestedDailyHours :=
      if inp.budgetMode = .lock ∧ 0 < inp.budget ∧ 0 < t.totalPay ∧ 0 < t.totalHours then
        some (appSuggestedFor inp.weeklyDays (inp.budget / t.totalPay))
      else none }

/-- App.jsx's `calculateAllTotals` (lines 168–287). -/
def appCalculateAllTotals (inp : AppInputs) : Except String AppResults :=
  if rataDie inp.toDate < rataDie inp.fromDate then
    .error "Please enter valid From and To dates."
  else
    .ok (appMkResults inp
      (appClassify inp.fromDate inp.toDate inp.recurringType inp.rates
        inp.weeklyDays
        (holidaySet inp.includePublicHolidays inp.publicHolidays)))

/-! ## Rate catalog selection (part_001, lines 571–584) -/

/-- One entry of the externally fetched rate catalog: name, code
(`Support Item Number`), and the jurisdiction rate column `QLD` (absent
values fall back to `0` via `(i.QLD || 0)`). -/
structure NdisItem where
  supportItemName : String
  supportItemNumber : String
  qld : Option ℚ
deriving DecidableEq, Repr

/-- One rate-sheet entry of part_001's `rates` state:
`{ name, rate, number }`. The JS `rate` is the string
`(i.QLD || 0).toString()`; it is modelled by its numeric value. -/
structure RateInfo where
  name : String
  rate : ℚ
  number : String
deriving DecidableEq, Repr

/-- The `getInfo` projection of `handleNdisRateSelect` (line 572). -/
def getInfo (i : NdisItem) : RateInfo :=
  ⟨i.supportItemName, i.qld.getD 0, i.supportItemNumber⟩

/-- The five-category rate sheet of part_001's `rates` state. -/
structure RatesState where
  weekday : RateInfo
  weekdayEvening : RateInfo
  saturday : RateInfo
  sunday : RateInfo
  publicHoliday : RateInfo
deriving DecidableEq, Repr

/-- Rate categories of the rate sheet. -/
inductive RateCat where
  | weekday
  | weekdayEvening
  | saturday
  | sunday
  | publicHoliday
deriving DecidableEq, Repr

/-- Field lookup of a rate-sheet entry by category. -/
def RatesState.get (r : RatesState) (c : RateCat) : RateInfo :=
  match c with
  | .weekday => r.weekday
  | .weekdayEvening => r.weekdayEvening
  | .saturday => r.saturday
  | .sunday => r.sunday
  | .publicHoliday => r.publicHoliday

/-- The non-base categories: every `rateType` other than `'weekday'`. -/
inductive NonBaseRateType where
  | weekdayEvening
  | saturday
  | sunday
  | publicHoliday
deriving DecidableEq, Repr

/-- Inclusion of the non-base categories into `RateCat`. -/
def NonBaseRateType.toCat : NonBaseRateType → RateCat
  | .weekdayEvening => .weekdayEvening
  | .saturday => .saturday
  | .sunday => .sunday
  | .publicHoliday => .publicHoliday

/-- The non-base branch of `handleNdisRateSelect` (part_001 line 583):
`setRates(prev => ({ ...prev, [rateType]: selectedInfo }))`. The base
(`'weekday'`) branch runs the fuzzy related-entry matcher instead and is a
separate routine outside this definition's domain. -/
def handleNdisRateSelect (rateType : NonBaseRateType) (item : NdisItem)
    (prev : RatesState) : RatesState :=
  match rateType with
  | .weekdayEvening => { prev with weekdayEvening := getInfo item }
  | .saturday => { prev with saturday := getInfo item }
  | .sunday => { prev with sunday := getInfo item }
  | .publicHoliday => { prev with publicHoliday := getInfo item }

/-! ## Concrete inputs used by counterexamples and witnesses -/

/-- An unselected slot with zero hours and day shift. -/
def offDay : DayInfo := ⟨false, 0, .day⟩

/-- The concrete fortnightly scenario of the spec: range
2025-01-01 .. 2025-01-28, only Monday selected at 5 hours, weekday rate 40,
holidays not applied. -/
def fortnightlyInput : Inputs :=
  { fromDate := ⟨2025, 1, 1⟩
  , toDate := ⟨2025, 1, 28⟩
  , recurringType := .Fortnightly
  , weeklyDays := ⟨⟨true, 5, .day⟩, offDay, offDay, offDay, offDay, offDay, offDay⟩
  , includePublicHolidays := false
  , publicHolidays := []
  , rates := ⟨40, 0, 0, 0, 0⟩
  , budget := 0
  , budgetMode := .noBudget }

/-- A rounding-order probe: Monday and Saturday 1 hour each in the week
2025-01-06 .. 2025-01-11, weekday and Saturday rates both 0.005, so each
category pay rounds up to 0.01 while their raw sum 0.01 also rounds to
0.01. -/
def roundingInput : Inputs :=
  { fromDate := ⟨2025, 1, 6⟩
  , toDate := ⟨2025, 1, 11⟩
  , recurringType := .Weekly
  , weeklyDays := ⟨⟨true, 1, .day⟩, offDay, offDay, offDay, offDay, ⟨true, 1, .day⟩, offDay⟩
  , includePublicHolidays := false
  , publicHolidays := []
  , rates := ⟨1/200, 0, 1/200, 0, 0⟩
  , budget := 0
  , budgetMode := .noBudget }

/-- A budget-lock scenario on the same single Monday: 2 hours at rate 50,
budget 60, lock mode. -/
def lockInput : Inputs :=
  { fromDate := ⟨2025, 1, 6⟩
  , toDate := ⟨2025, 1, 6⟩
  , recurringType := .Weekly
  , weeklyDays := ⟨⟨true, 2, .day⟩, offDay, offDay, offDay, offDay, offDay, offDay⟩
  , includePublicHolidays := false
  , publicHolidays := []
  , rates := ⟨50, 0, 0, 0, 0⟩
  , budget := 60
  , budgetMode := .lock }

/-- The same scenario as `lockInput` with different rates, budget and
budget mode (weekday rate 75, no budget lock). -/
def lockInputOtherRates : Inputs :=
  { lockInput with rates := ⟨75, 0, 0, 0, 0⟩, budget := 0, budgetMode := .noBudget }

/-- A Saturday that is also a listed holiday: 2025-04-19 with 3 hours,
holidays applied. -/
def holidaySaturdayInput : Inputs :=
  { fromDate := ⟨2025, 4, 19⟩
  , toDate := ⟨2025, 4, 19⟩
  , recurringType := .Weekly
  , weeklyDays := ⟨offDay, offDay, offDay, offDay, offDay, ⟨true, 3, .day⟩, offDay⟩
  , includePublicHolidays := true
  , publicHolidays := [⟨2025, 4, 19⟩]
  , rates := ⟨10, 0, 20, 0, 30⟩
  , budget := 0
  , budgetMode := .noBudget }

/-- An App.jsx input with a single selected Monday (2025-01-06) carrying
zero hours. -/
def appZeroHoursInput : AppInputs :=
  { fromDate := ⟨2025, 1, 6⟩
  , toDate := ⟨2025, 1, 6⟩
  , recurringType := .Weekly
  , weeklyDays := ⟨⟨true, 0⟩, ⟨false, 0⟩, ⟨false, 0⟩, ⟨false, 0⟩, ⟨false, 0⟩, ⟨false, 0⟩, ⟨false, 0⟩⟩
  , includePublicHolidays := false
  , publicHolidays := []
  , rates := ⟨0, 0, 0, 0⟩
  , budget := 0
  , budgetMode := .noBudget }

/-- The hour-and-period view of a `Results` record: every figure that is
derived from the classifier tallies and the range endpoints alone — the
per-category and total hours and all period-breakdown counters — with the
pay figures and the suggestion projected away. -/
structure HourFigures where
  totalHours : ℚ
  weekdayHours : ℚ
  weekdayEveningHours : ℚ
  saturdayHours : ℚ
  sundayHours : ℚ
  publicHolidayHours : ℚ
  calculatedTotalDays : Nat
  calculatedTotalWeekdays : Nat
  calculatedTotalSaturdays : Nat
  calculatedTotalSundays : Nat
  calculatedTotalPublicHolidays : Nat
  calculatedFullWeeks : Nat
  calculatedFullFortnights : Nat
  calculatedFullMonths : Int
deriving DecidableEq, Repr

/-- Projection of a `Results` record onto its hour-and-period figures. -/
def Results.hourFigures (r : Results) : HourFigures :=
  ⟨r.totalHours, r.weekdayHours, r.weekdayEveningHours, r.saturdayHours,
   r.sundayHours, r.publicHolidayHours, r.calculatedTotalDays,
   r.calculatedTotalWeekdays, r.calculatedTotalSaturdays,
   r.calculatedTotalSundays, r.calculatedTotalPublicHolidays,
   r.calculatedFullWeeks, r.calculatedFullFortnights, r.calculatedFullMonths⟩

/-- A sample catalog entry. -/
def sampleItem : NdisItem :=
  ⟨"Assistance With Self-Care Activities - Saturday", "01_015_0107_1_1", some 65⟩

/-- A sample populated rate sheet. -/
def sampleRates : RatesState :=
  ⟨⟨"base", 50, "01_011"⟩, ⟨"eve", 55, "01_015"⟩, ⟨"sat", 60, "01_016"⟩,
   ⟨"sun", 70, "01_017"⟩, ⟨"ph", 80, "01_018"⟩⟩

/-- Decidable equality of `Except` values, needed to evaluate concrete
runs of the calculation by `decide`. -/
instance exceptDecEq {ε α : Type} [DecidableEq ε] [DecidableEq α] :
    DecidableEq (Except ε α) := fun a b =>
  match a, b with
  | .error e, .error f =>
      if h : e = f then isTrue (by rw [h])
      else isFalse (fun hh => h (by cases hh; rfl))
  | .error _, .ok _ => isFalse (fun hh => Except.noConfusion hh)
  | .ok _, .error _ => isFalse (fun hh => Except.noConfusion hh)
  | .ok x, .ok y =>
      if h : x = y then isTrue (by rw [h])
      else isFalse (fun hh => h (by cases hh; rfl))

/-! ## Helper lemmas -/

/-- The executable ceiling agrees with the mathematical ceiling. -/
theorem ceilQ_eq_ceil (q : ℚ) : ceilQ q = ⌈q⌉ := by
  have h1 : ⌈q⌉ = -⌊-q⌋ := by rw [← Int.ceil_neg, neg_neg]
  rw [h1]
  unfold ceilQ
  rw [Rat.floor_def]

/-- One classifier step preserves the counter-sum invariant: whenever a day
is counted, exactly one category day counter is incremented together with
the overall day counter. -/
theorem processDay_counter_sum (rt : RecurringType) (w : WeeklyDays)
    (hset : List CalDate) (d : CalDate) (offset : Nat) (t : Totals)
    (h : t.weekdays + t.saturdays + t.sundays + t.publicHolidays = t.days) :
    (processDay rt w hset d offset t).weekdays
      + (processDay rt w hset d offset t).saturdays
      + (processDay rt w hset d offset t).sundays
      + (processDay rt w hset d offset t).publicHolidays
      = (processDay rt w hset d offset t).days := by
  unfold processDay
  dsimp only
  repeat' split
  all_goals simp_all
  all_goals omega

/-- The classifier loop preserves the counter-sum invariant. -/
theorem classifyGo_counter_sum (rt : RecurringType) (w : WeeklyDays)
    (hset : List CalDate) (n : Nat) :
    ∀ (d : CalDate) (offset : Nat) (t : Totals),
      t.weekdays + t.saturdays + t.sundays + t.publicHolidays = t.days →
      (classifyGo rt w hset n d offset t).weekdays
        + (classifyGo rt w hset n d offset t).saturdays
        + (classifyGo rt w hset n d offset t).sundays
        + (classifyGo rt w hset n d offset t).publicHolidays
        = (classifyGo rt w hset n d offset t).days := by
  induction n with
  | zero => intro d offset t h; simpa [classifyGo] using h
  | succ n ih =>
      intro d offset t h
      simp only [classifyGo]
      exact ih _ _ _ (processDay_counter_sum rt w hset d offset t h)

/-- The classifier's final tallies satisfy the counter-sum invariant. -/
theorem classify_counter_sum (fromDate toDate : CalDate) (rt : RecurringType)
    (w : WeeklyDays) (hset : List CalDate) :
    (classify fromDate toDate rt w hset).weekdays
      + (classify fromDate toDate rt w hset).saturdays
      + (classify fromDate toDate rt w hset).sundays
      + (classify fromDate toDate rt w hset).publicHolidays
      = (classify fromDate toDate rt w hset).days := by
  unfold classify
  split
  · exact classifyGo_counter_sum rt w hset _ _ _ _ (by simp [initTotals])
  · simp [initTotals]

/-! ## Claim theorems -/

/-- C2: for every valid input, the four per-category day counters produced
by the classifier sum exactly to the overall counted-day counter:
countedWeekdays + countedSaturdays + countedSundays + countedHolidays =
countedDays. -/
theorem counted_category_completeness (inp : Inputs) (r : Results)
    (h : calculateAllTotals inp = .ok r) :
    r.calculatedTotalWeekdays + r.calculatedTotalSaturdays
      + r.calculatedTotalSundays + r.calculatedTotalPublicHolidays
      = r.calculatedTotalDays := by
  unfold calculateAllTotals at h
  split at h
  · exact absurd h (by simp)
  · injection h with h
    subst h
    exact classify_counter_sum inp.fromDate inp.toDate inp.recurringType
      inp.weeklyDays (holidaySet inp.includePublicHolidays inp.publicHolidays)

/-- Witness for C2 at the concrete fortnightly scenario. -/
theorem counted_category_completeness_witness :
    ∃ r, calculateAllTotals fortnightlyInput = .ok r ∧
      r.calculatedTotalWeekdays + r.calculatedTotalSaturdays
        + r.calculatedTotalSundays + r.calculatedTotalPublicHolidays
        = r.calculatedTotalDays :=
  ⟨_, rfl, counted_category_completeness fortnightlyInput _ rfl⟩

/-- C7: for the concrete input range 2025-01-01 through 2025-01-28 with
the Fortnightly policy, only Monday selected at 5 hours, weekday rate 40
and no holidays applied, the weekday hour tally equals 10 and the weekday
pay equals 400.00 (only the Mondays 2025-01-06 and 2025-01-20 are live). -/
theorem fortnightly_concrete_case :
    (calculateAllTotals fortnightlyInput).map
      (fun r => (r.weekdayHours, r.weekdayPay)) = .ok (10, 400) := by
  with_unfolding_all decide

/-- C1 counterexample: at `roundingInput` (two one-hour days at rate
0.005), the code's totalPay is 0.01 — the single rounding of the raw sum —
while the sum of the five individually rounded category pays is 0.02, so
totalPay does not equal the sum of the rounded per-category pays. -/
theorem pay_rounding_counterexample :
    (calculateAllTotals roundingInput).map
      (fun r => (r.totalPay,
        r.weekdayPay + r.weekdayEveningPay + r.saturdayPay + r.sundayPay
          + r.publicHolidayPay)) = .ok (1/100, 2/100)
    ∧ ((1 : ℚ)/100 ≠ 2/100) := by
  constructor
  · with_unfolding_all decide
  · norm_num

/-- C1 (amended): totalPay equals the sum of the five unrounded category
pays (categoryHours × rate) rounded up to 2 decimals once — the rounding
is applied after summing, not per category; the individually rounded
category pays are exposed as the separate per-category pay fields. -/
theorem totalPay_rounds_sum_of_unrounded (inp : Inputs) (r : Results)
    (h : calculateAllTotals inp = .ok r) :
    r.totalPay =
      roundUpToTwoDecimals
        ((classify inp.fromDate inp.toDate inp.recurringType inp.weeklyDays
            (holidaySet inp.includePublicHolidays inp.publicHolidays)).weekdayHours
            * inp.rates.weekdayRate
          + (classify inp.fromDate inp.toDate inp.recurringType inp.weeklyDays
              (holidaySet inp.includePublicHolidays inp.publicHolidays)).weekdayEveningHours
            * inp.rates.weekdayEveningRate
          + (classify inp.fromDate inp.toDate inp.recurringType inp.weeklyDays
              (holidaySet inp.includePublicHolidays inp.publicHolidays)).saturdayHours
            * inp.rates.saturdayRate
          + (classify inp.fromDate inp.toDate inp.recurringType inp.weeklyDays
              (holidaySet inp.includePublicHolidays inp.publicHolidays)).sundayHours
            * inp.rates.sundayRate
          + (classify inp.fromDate inp.toDate inp.recurringType inp.weeklyDays
              (holidaySet inp.includePublicHolidays inp.publicHolidays)).publicHolidayHours
            * inp.rates.publicHolidayRate)
    ∧ r.weekdayPay =
        roundUpToTwoDecimals
          ((classify inp.fromDate inp.toDate inp.recurringType inp.weeklyDays
              (holidaySet inp.includePublicHolidays inp.publicHolidays)).weekdayHours
            * inp.rates.weekdayRate) := by
  unfold calculateAllTotals at h
  split at h
  · exact absurd h (by simp)
  · injection h with h
    subst h
    exact ⟨rfl, rfl⟩

/-- Witness for the amended C1 at the rounding probe input. -/
theorem totalPay_rounds_sum_of_unrounded_witness :
    ∃ r, calculateAllTotals roundingInput = .ok r ∧
      (r.totalPay =
        roundUpToTwoDecimals
          ((classify roundingInput.fromDate roundingInput.toDate
              roundingInput.recurringType roundingInput.weeklyDays
              (holidaySet roundingInput.includePublicHolidays
                roundingInput.publicHolidays)).weekdayHours
              * roundingInput.rates.weekdayRate
            + (classify roundingInput.fromDate roundingInput.toDate
                roundingInput.recurringType roundingInput.weeklyDays
                (holidaySet roundingInput.includePublicHolidays
                  roundingInput.publicHolidays)).weekdayEveningHours
              * roundingInput.rates.weekdayEveningRate
            + (classify roundingInput.fromDate roundingInput.toDate
                roundingInput.recurringType roundingInput.weeklyDays
                (holidaySet roundingInput.includePublicHolidays
                  roundingInput.publicHolidays)).saturdayHours
              * roundingInput.rates.saturdayRate
            + (classify roundingInput.fromDate roundingInput.toDate
                roundingInput.recurringType roundingInput.weeklyDays
                (holidaySet roundingInput.includePublicHolidays
                  roundingInput.publicHolidays)).sundayHours
              * roundingInput.rates.sundayRate
            + (classify roundingInput.fromDate roundingInput.toDate
                roundingInput.recurringType roundingInput.weeklyDays
                (holidaySet roundingInput.includePublicHolidays
                  roundingInput.publicHolidays)).publicHolidayHours
              * roundingInput.rates.publicHolidayRate)
      ∧ r.weekdayPay =
          roundUpToTwoDecimals
            ((classify roundingInput.fromDate roundingInput.toDate
                roundingInput.recurringType roundingInput.weeklyDays
                (holidaySet roundingInput.includePublicHolidays
                  roundingInput.publicHolidays)).weekdayHours
              * roundingInput.rates.weekdayRate)) :=
  ⟨_, rfl, totalPay_rounds_sum_of_unrounded roundingInput _ rfl⟩

/-- C3 counterexample: in the App.jsx revision, the single-day range
2025-01-06 with Monday selected at zero hours yields countedDays = 1 (and
zero total hours) — the zero-hour day is counted, contrary to the claim
that it contributes to no counter. -/
theorem selected_zero_hours_counted_counterexample :
    (appCalculateAllTotals appZeroHoursInput).map
      (fun r => (r.calculatedTotalDays, r.totalHours)) = .ok (1, 0)
    ∧ (1 : Nat) ≠ 0 := by
  constructor
  · with_unfolding_all decide
  · decide

/-- C3 (amended): in the part_000/part_001 classifier, a date whose
resolved slot is unselected or has zero hours contributes nothing — the
loop step leaves every tally and counter unchanged; in the App.jsx
revision only unselected days are skipped entirely (a selected zero-hour
day still increments the counted-day and category-day counters while
adding zero hours and pay). -/
theorem skip_unselected_or_zero :
    (∀ (rt : RecurringType) (w : WeeklyDays) (hset : List CalDate)
        (d : CalDate) (offset : Nat) (t : Totals),
        (w.get (dayOfWeek d)).selected = false ∨ (w.get (dayOfWeek d)).hours = 0 →
        processDay rt w hset d offset t = t)
    ∧ (∀ (rt : RecurringType) (rates : AppRates) (w : AppWeeklyDays)
        (hset : List CalDate) (d : CalDate) (offset : Nat) (t : AppTotals),
        (w.get (dayOfWeek d)).selected = false →
        appProcessDay rt rates w hset d offset t = t) := by
  constructor
  · intro rt w hset d offset t h
    unfold processDay
    rcases h with h | h
    · simp [h]
    · cases hsel : (w.get (dayOfWeek d)).selected <;> simp [hsel, h]
  · intro rt rates w hset d offset t h
    unfold appProcessDay
    simp [h]

/-- Witness for the amended C3: an unselected Tuesday is skipped by the
part_000 step, and an unselected Tuesday is skipped by the App.jsx step. -/
theorem skip_unselected_or_zero_witness :
    processDay .Weekly fortnightlyInput.weeklyDays [] ⟨2025, 1, 7⟩ 1 initTotals
      = initTotals
    ∧ appProcessDay .Weekly appZeroHoursInput.rates appZeroHoursInput.weeklyDays
        [] ⟨2025, 1, 7⟩ 1 appInitTotals
      = appInitTotals :=
  ⟨skip_unselected_or_zero.1 .Weekly fortnightlyInput.weeklyDays [] ⟨2025, 1, 7⟩
      1 initTotals (Or.inl (by decide)),
   skip_unselected_or_zero.2 .Weekly appZeroHoursInput.rates
      appZeroHoursInput.weeklyDays [] ⟨2025, 1, 7⟩ 1 appInitTotals (by decide)⟩

/-- C4: with budget-lock mode active, the solver produces a non-empty
suggestion exactly when the target budget is strictly positive and the
current flexible pay base (the unrounded total pay) is strictly positive;
when either precondition fails the calculation still succeeds (no error)
with the empty suggestion. -/
theorem budget_suggestion_iff (inp : Inputs)
    (h : rataDie inp.fromDate ≤ rataDie inp.toDate) :
    ∃ r, calculateAllTotals inp = .ok r ∧
      (r.suggestedDailyHours.isSome ↔
        (inp.budgetMode = .lock ∧ 0 < inp.budget ∧ 0 < flexiblePayBase inp)) := by
  refine ⟨mkResults inp
    (classify inp.fromDate inp.toDate inp.recurringType inp.weeklyDays
      (holidaySet inp.includePublicHolidays inp.publicHolidays)), ?_, ?_⟩
  · unfold calculateAllTotals
    rw [if_neg (Nat.not_lt.mpr h)]
  · unfold flexiblePayBase
    simp only [mkResults]
    split
    · next hc => simp [hc]
    · next hc => simp [hc]

/-- Witness for C4 at the concrete budget-lock scenario. -/
theorem budget_suggestion_iff_witness :
    ∃ r, calculateAllTotals lockInput = .ok r ∧
      (r.suggestedDailyHours.isSome ↔
        (lockInput.budgetMode = .lock ∧ 0 < lockInput.budget
          ∧ 0 < flexiblePayBase lockInput)) :=
  budget_suggestion_iff lockInput (by decide)

/-- C5: when the budget-lock branch fires, the scaling factor is the
target budget divided by the current flexible pay base (there are no fixed
costs in this program), and each of the seven slots' suggested hours equal
the slot's current hours times that factor when selected and zero when
unselected. -/
theorem suggested_hours_formula (inp : Inputs) (r : Results)
    (s : SuggestedDailyHours)
    (hok : calculateAllTotals inp = .ok r)
    (hs : r.suggestedDailyHours = some s) :
    s.monday.hours = (if inp.weeklyDays.monday.selected then
        inp.weeklyDays.monday.hours * (inp.budget / flexiblePayBase inp) else 0)
    ∧ s.tuesday.hours = (if inp.weeklyDays.tuesday.selected then
        inp.weeklyDays.tuesday.hours * (inp.budget / flexiblePayBase inp) else 0)
    ∧ s.wednesday.hours = (if inp.weeklyDays.wednesday.selected then
        inp.weeklyDays.wednesday.hours * (inp.budget / flexiblePayBase inp) else 0)
    ∧ s.thursday.hours = (if inp.weeklyDays.thursday.selected then
        inp.weeklyDays.thursday.hours * (inp.budget / flexiblePayBase inp) else 0)
    ∧ s.friday.hours = (if inp.weeklyDays.friday.selected then
        inp.weeklyDays.friday.hours * (inp.budget / flexiblePayBase inp) else 0)
    ∧ s.saturday.hours = (if inp.weeklyDays.saturday.selected then
        inp.weeklyDays.saturday.hours * (inp.budget / flexiblePayBase inp) else 0)
    ∧ s.sunday.hours = (if inp.weeklyDays.sunday.selected then
        inp.weeklyDays.sunday.hours * (inp.budget / flexiblePayBase inp) else 0) := by
  unfold calculateAllTotals at hok
  split at hok
  · exact absurd hok (by simp)
  · injection hok with hok
    subst hok
    simp only [mkResults] at hs
    split at hs
    · injection hs with hs
      subst hs
      unfold flexiblePayBase suggestedFor suggestSlot
      exact ⟨rfl, rfl, rfl, rfl, rfl, rfl, rfl⟩
    · exact absurd hs (by simp)

/-- Witness for C5 at the concrete budget-lock scenario. -/
theorem suggested_hours_formula_witness :
    ∃ r s, calculateAllTotals lockInput = .ok r
      ∧ r.suggestedDailyHours = some s
      ∧ s.monday.hours = (if lockInput.weeklyDays.monday.selected then
          lockInput.weeklyDays.monday.hours
            * (lockInput.budget / flexiblePayBase lockInput) else 0) := by
  have hs : (mkResults lockInput
        (classify lockInput.fromDate lockInput.toDate lockInput.recurringType
          lockInput.weeklyDays
          (holidaySet lockInput.includePublicHolidays
            lockInput.publicHolidays))).suggestedDailyHours
      = some (suggestedFor lockInput.weeklyDays
          (lockInput.budget / flexiblePayBase lockInput)) := by
    with_unfolding_all decide
  exact ⟨_, suggestedFor lockInput.weeklyDays
      (lockInput.budget / flexiblePayBase lockInput), rfl, hs,
    (suggested_hours_formula lockInput _ _ rfl hs).1⟩

/-- C6: a counted date (selected slot, non-zero hours, live recurrence)
that lies in the applied holiday set is classified as a public holiday —
its hours go to the public-holiday tally and its day increments the
holiday counter and the overall day counter, leaving the Saturday, Sunday
and weekday tallies untouched — regardless of its weekday. -/
theorem holiday_precedence (inp : Inputs) (d : CalDate) (offset : Nat)
    (t : Totals)
    (hsel : (inp.weeklyDays.get (dayOfWeek d)).selected = true)
    (hh : (inp.weeklyDays.get (dayOfWeek d)).hours ≠ 0)
    (hc : shouldCountDay inp.recurringType offset = true)
    (hen : inp.includePublicHolidays = true)
    (hmem : d ∈ inp.publicHolidays) :
    processDay inp.recurringType inp.weeklyDays
        (holidaySet inp.includePublicHolidays inp.publicHolidays) d offset t =
      { t with publicHolidayHours :=
                 t.publicHolidayHours + (inp.weeklyDays.get (dayOfWeek d)).hours,
               publicHolidays := t.publicHolidays + 1,
               days := t.days + 1 } := by
  unfold processDay holidaySet
  rw [hen]
  simp [hsel, hh, hc, hmem]

/-- Witness for C6 at the Saturday holiday 2025-04-19. -/
theorem holiday_precedence_witness :
    processDay holidaySaturdayInput.recurringType holidaySaturdayInput.weeklyDays
        (holidaySet holidaySaturdayInput.includePublicHolidays
          holidaySaturdayInput.publicHolidays) ⟨2025, 4, 19⟩ 0 initTotals =
      { initTotals with
          publicHolidayHours := initTotals.publicHolidayHours
            + (holidaySaturdayInput.weeklyDays.get (dayOfWeek ⟨2025, 4, 19⟩)).hours,
          publicHolidays := initTotals.publicHolidays + 1,
          days := initTotals.days + 1 } :=
  holiday_precedence holidaySaturdayInput ⟨2025, 4, 19⟩ 0 initTotals
    (by decide) (by with_unfolding_all decide) (by decide) rfl (by decide)

/-- C8: for every valid range, calculatedFullMonths equals the calendar
formula (to.year - from.year) * 12 - from.month + to.month, decremented by
one when to.day < from.day and the value is still positive, then clamped
below at zero — a function of the range endpoints only, independent of the
counted days. -/
theorem fullMonths_formula (inp : Inputs) (r : Results)
    (h : calculateAllTotals inp = .ok r) :
    r.calculatedFullMonths =
      max 0
        (if inp.toDate.day < inp.fromDate.day ∧
            0 < ((inp.toDate.year : Int) - inp.fromDate.year) * 12
              - inp.fromDate.month + inp.toDate.month
         then ((inp.toDate.year : Int) - inp.fromDate.year) * 12
              - inp.fromDate.month + inp.toDate.month - 1
         else ((inp.toDate.year : Int) - inp.fromDate.year) * 12
              - inp.fromDate.month + inp.toDate.month) := by
  unfold calculateAllTotals at h
  split at h
  · exact absurd h (by simp)
  · injection h with h
    subst h
    show max 0 (monthsDiffCalc inp.fromDate inp.toDate) = _
    unfold monthsDiffCalc
    have hm : ((inp.toDate.year : Int) - inp.fromDate.year) * 12
          - ((inp.fromDate.month : Int) - 1) + ((inp.toDate.month : Int) - 1)
        = ((inp.toDate.year : Int) - inp.fromDate.year) * 12
          - inp.fromDate.month + inp.toDate.month := by
      ring
    rw [hm]

/-- Witness for C8 at the concrete fortnightly scenario. -/
theorem fullMonths_formula_witness :
    ∃ r, calculateAllTotals fortnightlyInput = .ok r ∧
      r.calculatedFullMonths =
        max 0
          (if fortnightlyInput.toDate.day < fortnightlyInput.fromDate.day ∧
              0 < ((fortnightlyInput.toDate.year : Int)
                    - fortnightlyInput.fromDate.year) * 12
                - fortnightlyInput.fromDate.month + fortnightlyInput.toDate.month
           then ((fortnightlyInput.toDate.year : Int)
                  - fortnightlyInput.fromDate.year) * 12
                - fortnightlyInput.fromDate.month + fortnightlyInput.toDate.month - 1
           else ((fortnightlyInput.toDate.year : Int)
                  - fortnightlyInput.fromDate.year) * 12
                - fortnightlyInput.fromDate.month + fortnightlyInput.toDate.month) :=
  ⟨_, rfl, fullMonths_formula fortnightlyInput _ rfl⟩

/-- C9: two inputs that agree on everything except the five rate amounts,
the budget value and the budget mode produce identical hour figures and
period-breakdown counters — rates and budget influence only the pay
figures and the suggestion. -/
theorem rates_budget_noninterference (inp1 inp2 : Inputs)
    (h1 : inp1.fromDate = inp2.fromDate) (h2 : inp1.toDate = inp2.toDate)
    (h3 : inp1.recurringType = inp2.recurringType)
    (h4 : inp1.weeklyDays = inp2.weeklyDays)
    (h5 : inp1.includePublicHolidays = inp2.includePublicHolidays)
    (h6 : inp1.publicHolidays = inp2.publicHolidays) :
    (calculateAllTotals inp1).map Results.hourFigures
      = (calculateAllTotals inp2).map Results.hourFigures := by
  unfold calculateAllTotals
  rw [h1, h2, h3, h4, h5, h6]
  split
  · rfl
  · simp only [Except.map, Results.hourFigures, mkResults]
    rw [h1, h2]

/-- Witness for C9: the lock scenario and its rates/budget/mode variant. -/
theorem rates_budget_noninterference_witness :
    (calculateAllTotals lockInput).map Results.hourFigures
      = (calculateAllTotals lockInputOtherRates).map Results.hourFigures :=
  rates_budget_noninterference lockInput lockInputOtherRates
    rfl rfl rfl rfl rfl rfl

/-- C10: selecting a catalog entry for a single non-base rate category
replaces exactly that category's rate-sheet entry with the entry derived
from the item, and leaves every other category's entry unchanged. -/
theorem rate_select_frame (rateType : NonBaseRateType) (item : NdisItem)
    (prev : RatesState) (c : RateCat) (hc : c ≠ rateType.toCat) :
    (handleNdisRateSelect rateType item prev).get rateType.toCat = getInfo item
    ∧ (handleNdisRateSelect rateType item prev).get c = prev.get c := by
  cases rateType <;> cases c <;>
    first
      | exact ⟨rfl, rfl⟩
      | exact absurd rfl hc

/-- Witness for C10: selecting a Saturday entry leaves the weekday base
entry unchanged. -/
theorem rate_select_frame_witness :
    (handleNdisRateSelect .saturday sampleItem sampleRates).get
        (NonBaseRateType.toCat .saturday) = getInfo sampleItem
    ∧ (handleNdisRateSelect .saturday sampleItem sampleRates).get .weekday
      = sampleRates.get .weekday :=
  rate_select_frame .saturday sampleItem sampleRates .weekday (by decide)

end HoursApp
